import Mathlib

/-!
Shallow embedding of the `sap_middleware` package (a Flask HTTP middleware
over a simulated SAP backend) and proofs of its specified properties.

Source files embedded:
- `sap_middleware/sap_service.py` (backend stub: connect, read material, create sales order)
- `sap_middleware/auth.py` (API-key gate)
- `sap_middleware/app.py` (two route handlers and their exception-to-status mapping)
- `sap_middleware/config.py` (environment-derived settings)
-/

/-- A single-quote character as a string, used in messages built by Python
f-strings in the source (for example Material with ID ...). -/
def squo : String := String.mk [Char.ofNat 39]

/-- Python values as produced by JSON parsing plus the values the stub builds:
None, booleans, integers, strings, lists, and dicts (modelled as ordered
association lists, matching Python dict insertion order). -/
inductive PyVal where
  | none
  | bool (b : Bool)
  | int (n : Int)
  | str (s : String)
  | list (xs : List PyVal)
  | dict (kvs : List (String × PyVal))

/-- Python truthiness, as used by `if not customer_id or not items` and
`if not data` in the source: None, False, 0, empty string, empty list and
empty dict are falsy, everything else truthy. -/
def PyVal.truthy : PyVal → Bool
  | .none => false
  | .bool b => b
  | .int n => n != 0
  | .str s => s != ""
  | .list [] => false
  | .list (_ :: _) => true
  | .dict [] => false
  | .dict (_ :: _) => true

/-- The `isinstance(data, dict)` test from the handler. -/
def PyVal.isDict : PyVal → Bool
  | .dict _ => true
  | _ => false

/-- The entries of a dict value (empty for non-dicts; only applied to dicts). -/
def PyVal.entries : PyVal → List (String × PyVal)
  | .dict kvs => kvs
  | _ => []

/-- Python key membership test `k in data` for a dict. -/
def PyVal.hasKey (v : PyVal) (k : String) : Bool :=
  (v.entries).any (fun p => p.1 == k)

/-- Python `dict.get(k)`: the first value bound to `k`, or None when the key
is absent (mirrors `order_data.get("customer_id")` in the source). -/
def dictGet (kvs : List (String × PyVal)) (k : String) : PyVal :=
  match kvs.find? (fun p => p.1 == k) with
  | some p => p.2
  | Option.none => PyVal.none

mutual
/-- Python `repr` of a value, as invoked by `str(order_data)` on a dict in
`create_sales_order` (str of a container reprs its elements). Strings repr
with single quotes; assumes strings without quote or escape characters,
which is all the stub ever hashes. -/
def PyVal.reprPy : PyVal → String
  | .none => "None"
  | .bool true => "True"
  | .bool false => "False"
  | .int n => toString n
  | .str s => squo ++ s ++ squo
  | .list xs => "[" ++ reprPyList xs ++ "]"
  | .dict kvs => "\x7b" ++ reprPyDict kvs ++ "\x7d"

/-- Comma-joined reprs of the elements of a Python list. -/
def reprPyList : List PyVal → String
  | [] => ""
  | [x] => x.reprPy
  | x :: rest => x.reprPy ++ ", " ++ reprPyList rest

/-- Comma-joined `repr(key): repr(value)` entries of a Python dict. -/
def reprPyDict : List (String × PyVal) → String
  | [] => ""
  | [p] => squo ++ p.1 ++ squo ++ ": " ++ p.2.reprPy
  | p :: rest => squo ++ p.1 ++ squo ++ ": " ++ p.2.reprPy ++ ", " ++ reprPyDict rest
end

/-- The three exception classes declared in `sap_service.py`; each carries
only the message string it is constructed with. -/
inductive SAPError where
  | connectionError (msg : String)
  | notFoundError (msg : String)
  | operationError (msg : String)
deriving DecidableEq

/-- The `Settings` class of `config.py`: every `os.getenv` field is an
optional string (None when the variable is unset); `FLASK_APP` and
`FLASK_ENV` have string defaults and `DEBUG` is a boolean. -/
structure Settings where
  SAP_HOST : Option String
  SAP_CLIENT : Option String
  SAP_USER : Option String
  SAP_PASSWORD : Option String
  SAP_SYSTEM_NUMBER : Option String
  API_KEY : Option String
  FLASK_APP : String
  FLASK_ENV : String
  DEBUG : Bool

/-- Lift an optional environment string to the Python value it denotes
(None when unset). -/
def optStr : Option String → PyVal
  | Option.none => PyVal.none
  | some s => PyVal.str s

/-- Embeds `connect_to_sap` from `sap_service.py`: raises
SAPConnectionError when `settings.SAP_HOST == "fail_connection"`, else
returns the dummy connection dict carrying the host. -/
def connect_to_sap (s : Settings) : Except SAPError PyVal :=
  if s.SAP_HOST = some "fail_connection" then
    .error (.connectionError "Failed to connect to SAP: Host unreachable (simulated)")
  else
    .ok (.dict [("status", .str "connected"), ("host", optStr s.SAP_HOST)])

/-- Embeds `read_material_data` from `sap_service.py`: connect first
(propagating SAPConnectionError), guard the falsy-connection branch, then
the sentinel checks, else the synthesized material dict. -/
def read_material_data (s : Settings) (material_id : String) : Except SAPError PyVal :=
  match connect_to_sap s with
  | .error e => .error e
  | .ok conn =>
    if !conn.truthy then
      .error (.connectionError "Connection not established for read_material_data (unexpected internal state)")
    else if material_id = "INVALID" ∨ material_id = "NOT_FOUND" then
      .error (.notFoundError ("Material with ID " ++ squo ++ material_id ++ squo ++ " not found."))
    else if material_id = "ERROR_READ" then
      .error (.operationError ("Failed to read data for material " ++ squo ++ material_id ++ squo ++ " (simulated)."))
    else
      .ok (.dict [("material_id", .str material_id),
                  ("description", .str ("Sample Material " ++ material_id)),
                  ("quantity", .int 100),
                  ("unit", .str "EA"),
                  ("plant", .str "1000")])

/-- Python equality of an arbitrary value against a string literal, as in
`customer_id == "FAIL_CUSTOMER"`: only a str can compare equal to a str. -/
def PyVal.eqStr : PyVal → String → Bool
  | .str s, t => s == t
  | _, _ => false

/-- The Python format expression applied to the order id,
`f"SO\x7b... % 100000:05d\x7d"` without the SO part: the five decimal
digits of a natural number below 100000, zero padded (padding width 5 and
the modulus 100000 make the output exactly the five base-10 digits). -/
def format05 (n : Nat) : String :=
  String.mk [Nat.digitChar (n / 10000 % 10), Nat.digitChar (n / 1000 % 10),
             Nat.digitChar (n / 100 % 10), Nat.digitChar (n / 10 % 10),
             Nat.digitChar (n % 10)]

/-- Embeds `create_sales_order` from `sap_service.py`. Python's built-in
`hash` on strings is a fixed (per process) integer-valued function; it is
passed in as the parameter `pyHash`, and `abs` becomes `Int.natAbs`. -/
def create_sales_order (pyHash : String → Int) (s : Settings)
    (order_data : List (String × PyVal)) : Except SAPError PyVal :=
  match connect_to_sap s with
  | .error e => .error e
  | .ok conn =>
    if !conn.truthy then
      .error (.connectionError "Connection not established for create_sales_order (unexpected internal state)")
    else
      let customer_id := dictGet order_data "customer_id"
      let items := dictGet order_data "items"
      if !customer_id.truthy || !items.truthy then
        .error (.operationError "Invalid order data: customer_id and items are required.")
      else if customer_id.eqStr "FAIL_CUSTOMER" then
        .error (.operationError ("Customer " ++ squo ++ "FAIL_CUSTOMER" ++ squo ++ " is not valid for sales order creation."))
      else
        let simulated_order_id :=
          "SO" ++ format05 ((pyHash (PyVal.reprPy (.dict order_data))).natAbs % 100000)
        .ok (.dict [("status", .str "success"),
                    ("order_id", .str simulated_order_id),
                    ("message", .str "Sales order created successfully in SAP (simulated).")])

/-- An exception as seen by a handler's try/except ladder: one of the three
SAP exception classes, or any other Python exception (carrying a message),
which only the final `except Exception` clause can catch. -/
inductive PyExc where
  | sap (e : SAPError)
  | other (msg : String)
deriving DecidableEq

/-- An HTTP response produced by a handler: status code and JSON body. -/
structure HttpResponse where
  status : Nat
  body : PyVal

/-- The except ladder of `get_material` in `app.py`: SAPNotFoundError to
404, SAPConnectionError to 503, SAPOperationError to 500, and any other
exception to a generic 500. -/
def get_material_exc_response : PyExc → HttpResponse
  | .sap (.notFoundError m) => ⟨404, .dict [("error", .str m)]⟩
  | .sap (.connectionError m) => ⟨503, .dict [("error", .str ("SAP connection error: " ++ m))]⟩
  | .sap (.operationError m) => ⟨500, .dict [("error", .str ("SAP operation error: " ++ m))]⟩
  | .other _ => ⟨500, .dict [("error", .str "An unexpected error occurred")]⟩

/-- The except ladder of `create_sales_order_api` in `app.py`:
SAPConnectionError to 503, SAPOperationError to 400, and any other
exception (including an SAPNotFoundError, which this handler does not
anticipate) to a generic 500. -/
def create_sales_order_exc_response : PyExc → HttpResponse
  | .sap (.connectionError m) => ⟨503, .dict [("error", .str ("SAP connection error: " ++ m))]⟩
  | .sap (.operationError m) => ⟨400, .dict [("error", .str ("SAP operation error: " ++ m))]⟩
  | .sap (.notFoundError _) => ⟨500, .dict [("error", .str "An unexpected error occurred")]⟩
  | .other _ => ⟨500, .dict [("error", .str "An unexpected error occurred")]⟩

/-- The body of the `get_material` route handler after the auth gate:
call `read_material_data`, return 200 with the record on success, else map
the raised exception through the except ladder. -/
def get_material (s : Settings) (material_id : String) : HttpResponse :=
  match read_material_data s material_id with
  | .ok material_data => ⟨200, material_data⟩
  | .error e => get_material_exc_response (.sap e)

/-- The outcome mapping of `create_sales_order_api` once validation has
passed: call the sales-order service on the parsed body, return 201 with
the confirmation on success, else map the exception through the ladder. -/
def sales_order_service_outcome (svc : List (String × PyVal) → Except SAPError PyVal)
    (kvs : List (String × PyVal)) : HttpResponse :=
  match svc kvs with
  | .ok order_confirmation => ⟨201, order_confirmation⟩
  | .error e => create_sales_order_exc_response (.sap e)

/-- The body of the `create_sales_order_api` route handler after the auth
gate, over the parsed JSON body `data` (None when the request carried no
JSON). The backend call is passed in as `svc` so that theorems can state
that invalid bodies never reach it; the application instantiates it with
`create_sales_order`. -/
def create_sales_order_api (svc : List (String × PyVal) → Except SAPError PyVal)
    (data : PyVal) : HttpResponse :=
  if !data.truthy || !data.isDict then
    ⟨400, .dict [("error", .str "Invalid input: JSON data expected")]⟩
  else if !data.hasKey "details" then
    ⟨400, .dict [("error", .str ("Invalid input: " ++ squo ++ "details" ++ squo ++ " key missing in JSON payload"))]⟩
  else
    sales_order_service_outcome svc data.entries

/-- The authorization test of `api_key_required` in `auth.py`:
`api_key and api_key == settings.API_KEY`, where the header value is falsy
when absent or empty and an equality against an unset (None) secret is
false. -/
def authorized (apiKeyHeader : Option String) (apiKey : Option String) : Bool :=
  match apiKeyHeader with
  | Option.none => false
  | some k => (k != "") && (apiKey == some k)

/-- A request as seen by the decorator: the value of the X-API-KEY header
(None when absent) and the parsed JSON body (None when absent). -/
structure Request where
  apiKeyHeader : Option String
  jsonBody : PyVal

/-- The `api_key_required` decorator from `auth.py`: run the wrapped
handler when authorized, else answer 401 with the fixed message body. -/
def api_key_required (s : Settings) (handler : Request → HttpResponse)
    (req : Request) : HttpResponse :=
  if authorized req.apiKeyHeader s.API_KEY then handler req
  else ⟨401, .dict [("message", .str "Unauthorized: Invalid or missing API Key")]⟩

/-- A settings valuation with ordinary values in every field, matching the
test environment (host not the fault sentinel, a configured API key). -/
def sampleSettings : Settings :=
  ⟨some "sap.example.com", some "100", some "sapuser", some "secret", some "00",
   some "test_api_key_for_testing", "sap_middleware/app.py", "development", true⟩

/-- The sample settings with the host replaced by the connection-fault
sentinel used by the test suite. -/
def failSettings : Settings :=
  ⟨some "fail_connection", some "100", some "sapuser", some "secret", some "00",
   some "test_api_key_for_testing", "sap_middleware/app.py", "development", true⟩

/-- Decides the spec pattern: the literal SO followed by exactly five
decimal digits. -/
def soPattern (s : String) : Bool :=
  match s.data with
  | 'S' :: 'O' :: ds => (ds.length == 5) && ds.all Char.isDigit
  | _ => false

/-- Every digit of a natural number below ten prints as a decimal digit
character. -/
theorem digitChar_isDigit (d : Nat) (hd : d < 10) : (Nat.digitChar d).isDigit = true := by
  interval_cases d <;> decide

/-- The order-id format always yields SO followed by five digits. -/
theorem soPattern_format05 (n : Nat) : soPattern ("SO" ++ format05 n) = true := by
  have h10 : ∀ d : Nat, (Nat.digitChar (d % 10)).isDigit = true := fun d =>
    digitChar_isDigit (d % 10) (Nat.mod_lt _ (by norm_num))
  show soPattern (String.mk ('S' :: 'O' :: [Nat.digitChar (n / 10000 % 10),
    Nat.digitChar (n / 1000 % 10), Nat.digitChar (n / 100 % 10),
    Nat.digitChar (n / 10 % 10), Nat.digitChar (n % 10)])) = true
  simp [soPattern, h10]

/-- Claim C1: for every material identifier outside the reserved sentinel
set and with the configured host different from the connection-fault
sentinel, read_material_data succeeds and returns a record whose
material_id equals the input identifier exactly, whose description embeds
the identifier, and whose quantity is 100, unit EA and plant 1000. -/
theorem read_material_data_success (s : Settings) (material_id : String)
    (h1 : material_id ≠ "INVALID") (h2 : material_id ≠ "NOT_FOUND")
    (h3 : material_id ≠ "ERROR_READ")
    (hhost : s.SAP_HOST ≠ some "fail_connection") :
    read_material_data s material_id =
      .ok (.dict [("material_id", .str material_id),
                  ("description", .str ("Sample Material " ++ material_id)),
                  ("quantity", .int 100),
                  ("unit", .str "EA"),
                  ("plant", .str "1000")]) ∧
    ∃ bef aft, "Sample Material " ++ material_id = bef ++ material_id ++ aft := by
  refine ⟨?_, "Sample Material ", "", by simp⟩
  unfold read_material_data connect_to_sap
  rw [if_neg hhost]
  simp [PyVal.truthy, h1, h2, h3]

/-- Claim C1 witness at a concrete ordinary identifier and settings. -/
theorem read_material_data_success_witness :
    read_material_data sampleSettings "MAT001" =
      .ok (.dict [("material_id", .str "MAT001"),
                  ("description", .str ("Sample Material " ++ "MAT001")),
                  ("quantity", .int 100),
                  ("unit", .str "EA"),
                  ("plant", .str "1000")]) ∧
    ∃ bef aft, "Sample Material " ++ "MAT001" = bef ++ "MAT001" ++ aft :=
  read_material_data_success sampleSettings "MAT001"
    (by decide) (by decide) (by decide) (by decide)

/-- Claim C2: the two handlers map the same backend failure kind to
different statuses: the material handler sends operation-failure to 500,
not-found to 404, connection-failure to 503 and anything else to a generic
500, while the sales-order handler sends operation-failure to 400,
connection-failure to 503 and anything else to a generic 500; the last two
conjuncts exhibit the asymmetry end to end through the full handlers. -/
theorem handler_status_mapping_asymmetry (m : String) :
    (get_material_exc_response (.sap (.operationError m))).status = 500 ∧
    (create_sales_order_exc_response (.sap (.operationError m))).status = 400 ∧
    (get_material_exc_response (.sap (.notFoundError m))).status = 404 ∧
    (get_material_exc_response (.sap (.connectionError m))).status = 503 ∧
    (create_sales_order_exc_response (.sap (.connectionError m))).status = 503 ∧
    get_material_exc_response (.other m) =
      ⟨500, .dict [("error", .str "An unexpected error occurred")]⟩ ∧
    create_sales_order_exc_response (.other m) =
      ⟨500, .dict [("error", .str "An unexpected error occurred")]⟩ ∧
    (get_material sampleSettings "ERROR_READ").status = 500 ∧
    (create_sales_order_api (create_sales_order (fun _ => 0) sampleSettings)
      (.dict [("details", PyVal.none), ("customer_id", .str "FAIL_CUSTOMER"),
              ("items", .list [.int 1])])).status = 400 :=
  ⟨rfl, rfl, rfl, rfl, rfl, rfl, rfl, rfl, rfl⟩

/-- Claim C4: with the host set to the fault sentinel, both stub
operations fail with the connection failure for every input, before any
other check can fire. -/
theorem connection_fault_dominates (s : Settings)
    (hhost : s.SAP_HOST = some "fail_connection")
    (material_id : String) (pyHash : String → Int)
    (order_data : List (String × PyVal)) :
    read_material_data s material_id =
      .error (.connectionError "Failed to connect to SAP: Host unreachable (simulated)") ∧
    create_sales_order pyHash s order_data =
      .error (.connectionError "Failed to connect to SAP: Host unreachable (simulated)") := by
  unfold read_material_data create_sales_order connect_to_sap
  rw [hhost]
  simp

/-- Claim C4 witness: inputs that would otherwise raise not-found (the
NOT_FOUND identifier) and operation failure (an empty order) still give
the connection failure under the fault sentinel. -/
theorem connection_fault_dominates_witness :
    read_material_data failSettings "NOT_FOUND" =
      .error (.connectionError "Failed to connect to SAP: Host unreachable (simulated)") ∧
    create_sales_order (fun _ => 0) failSettings [] =
      .error (.connectionError "Failed to connect to SAP: Host unreachable (simulated)") :=
  connection_fault_dominates failSettings (by decide) "NOT_FOUND" (fun _ => 0) []

/-- Unfolding of create_sales_order past a successful connect step: the
validation checks and the confirmation, written as a single conditional. -/
theorem create_sales_order_unfold (pyHash : String → Int) (s : Settings)
    (order_data : List (String × PyVal))
    (hhost : s.SAP_HOST ≠ some "fail_connection") :
    create_sales_order pyHash s order_data =
      (if !(dictGet order_data "customer_id").truthy || !(dictGet order_data "items").truthy then
        .error (.operationError "Invalid order data: customer_id and items are required.")
      else if (dictGet order_data "customer_id").eqStr "FAIL_CUSTOMER" then
        .error (.operationError ("Customer " ++ squo ++ "FAIL_CUSTOMER" ++ squo ++
          " is not valid for sales order creation."))
      else
        .ok (.dict [("status", .str "success"),
                    ("order_id", .str ("SO" ++ format05
                      ((pyHash (PyVal.reprPy (.dict order_data))).natAbs % 100000))),
                    ("message", .str "Sales order created successfully in SAP (simulated).")])) := by
  unfold create_sales_order connect_to_sap
  rw [if_neg hhost]
  rfl

/-- Claim C3: on valid input (truthy customer_id and items, customer not
the blocked sentinel, host not the fault sentinel) create_sales_order
returns a confirmation whose order id is SO followed by the hash of the
repr of the whole payload reduced modulo 100000 and zero padded to five
digits, hence matching the SO-five-digits pattern; determinism on
identical input is immediate since the result is a function of the
payload and the per-process string hash. -/
theorem create_sales_order_valid_id (pyHash : String → Int) (s : Settings)
    (order_data : List (String × PyVal))
    (hcust : (dictGet order_data "customer_id").truthy = true)
    (hitems : (dictGet order_data "items").truthy = true)
    (hblock : (dictGet order_data "customer_id").eqStr "FAIL_CUSTOMER" = false)
    (hhost : s.SAP_HOST ≠ some "fail_connection") :
    create_sales_order pyHash s order_data =
      .ok (.dict [("status", .str "success"),
                  ("order_id", .str ("SO" ++ format05
                    ((pyHash (PyVal.reprPy (.dict order_data))).natAbs % 100000))),
                  ("message", .str "Sales order created successfully in SAP (simulated).")]) ∧
    soPattern ("SO" ++ format05
      ((pyHash (PyVal.reprPy (.dict order_data))).natAbs % 100000)) = true := by
  refine ⟨?_, soPattern_format05 _⟩
  rw [create_sales_order_unfold pyHash s order_data hhost, hcust, hitems, hblock]
  rfl

/-- Claim C3 witness: a concrete valid order under a concrete per-process
string hash (string length); the repr of the payload has 68 characters,
so the order id is SO00068. -/
theorem create_sales_order_valid_id_witness :
    create_sales_order (fun str => (str.length : Int)) sampleSettings
      [("customer_id", .str "CUST001"),
       ("items", .list [.dict [("material_id", .str "MAT001"), ("quantity", .int 2)]]),
       ("details", .dict [])] =
      .ok (.dict [("status", .str "success"),
                  ("order_id", .str ("SO" ++ format05
                    (((fun str : String => (str.length : Int))
                      (PyVal.reprPy (.dict
                        [("customer_id", .str "CUST001"),
                         ("items", .list [.dict [("material_id", .str "MAT001"), ("quantity", .int 2)]]),
                         ("details", .dict [])]))).natAbs % 100000))),
                  ("message", .str "Sales order created successfully in SAP (simulated).")]) ∧
    soPattern ("SO" ++ format05
      (((fun str : String => (str.length : Int))
        (PyVal.reprPy (.dict
          [("customer_id", .str "CUST001"),
           ("items", .list [.dict [("material_id", .str "MAT001"), ("quantity", .int 2)]]),
           ("details", .dict [])]))).natAbs % 100000)) = true :=
  create_sales_order_valid_id (fun str => (str.length : Int)) sampleSettings
    [("customer_id", .str "CUST001"),
     ("items", .list [.dict [("material_id", .str "MAT001"), ("quantity", .int 2)]]),
     ("details", .dict [])]
    rfl rfl rfl (by decide)

/-- Claim C5 counterexample: with the host at the fault sentinel an order
missing both fields raises the connection failure rather than the
required-fields operation failure; and a blocked customer with missing
items raises the generic required-fields message rather than a
customer-specific one. -/
theorem create_sales_order_validation_cex :
    (create_sales_order (fun _ => 0) failSettings [] =
      .error (.connectionError "Failed to connect to SAP: Host unreachable (simulated)")) ∧
    (SAPError.connectionError "Failed to connect to SAP: Host unreachable (simulated)" ≠
      SAPError.operationError "Invalid order data: customer_id and items are required.") ∧
    (create_sales_order (fun _ => 0) sampleSettings [("customer_id", .str "FAIL_CUSTOMER")] =
      .error (.operationError "Invalid order data: customer_id and items are required.")) ∧
    ("Invalid order data: customer_id and items are required." ≠
      "Customer " ++ squo ++ "FAIL_CUSTOMER" ++ squo ++ " is not valid for sales order creation.") :=
  ⟨rfl, by decide, rfl, by decide⟩

/-- Claim C5 as amended: assuming the connect step succeeds,
create_sales_order fails with the required-fields operation failure
whenever customer_id or items is absent or falsy, and with the
customer-specific operation failure whenever customer_id equals the
blocked sentinel and items is non-empty. -/
theorem create_sales_order_validation (pyHash : String → Int) (s : Settings)
    (order_data : List (String × PyVal))
    (hhost : s.SAP_HOST ≠ some "fail_connection") :
    (((dictGet order_data "customer_id").truthy = false ∨
      (dictGet order_data "items").truthy = false) →
      create_sales_order pyHash s order_data =
        .error (.operationError "Invalid order data: customer_id and items are required.")) ∧
    ((dictGet order_data "customer_id") = .str "FAIL_CUSTOMER" →
     (dictGet order_data "items").truthy = true →
      create_sales_order pyHash s order_data =
        .error (.operationError ("Customer " ++ squo ++ "FAIL_CUSTOMER" ++ squo ++
          " is not valid for sales order creation."))) := by
  rw [create_sales_order_unfold pyHash s order_data hhost]
  constructor
  · rintro (h | h) <;> simp [h]
  · intro hcust hitems
    rw [hcust, hitems]
    rfl

/-- Claim C5 witness: concrete orders exercising both validation failures
under ordinary settings. -/
theorem create_sales_order_validation_witness :
    (create_sales_order (fun _ => 0) sampleSettings [("customer_id", .str "CUST1")] =
      .error (.operationError "Invalid order data: customer_id and items are required.")) ∧
    (create_sales_order (fun _ => 0) sampleSettings
      [("customer_id", .str "FAIL_CUSTOMER"), ("items", .list [.int 1])] =
      .error (.operationError ("Customer " ++ squo ++ "FAIL_CUSTOMER" ++ squo ++
        " is not valid for sales order creation."))) :=
  ⟨(create_sales_order_validation (fun _ => 0) sampleSettings
      [("customer_id", .str "CUST1")] (by decide)).1 (Or.inr rfl),
   (create_sales_order_validation (fun _ => 0) sampleSettings
      [("customer_id", .str "FAIL_CUSTOMER"), ("items", .list [.int 1])] (by decide)).2
      rfl rfl⟩

/-- Claim C6: reading the INVALID and NOT_FOUND identifiers fails with the
not-found failure whose message contains the identifier, and reading
ERROR_READ fails with an operation failure, whenever the connect step
succeeds. -/
theorem read_material_sentinel_failures (s : Settings)
    (hhost : s.SAP_HOST ≠ some "fail_connection") :
    (read_material_data s "INVALID" =
      .error (.notFoundError ("Material with ID " ++ squo ++ "INVALID" ++ squo ++ " not found."))) ∧
    (∃ bef aft, ("Material with ID " ++ squo ++ "INVALID" ++ squo ++ " not found.")
      = bef ++ "INVALID" ++ aft) ∧
    (read_material_data s "NOT_FOUND" =
      .error (.notFoundError ("Material with ID " ++ squo ++ "NOT_FOUND" ++ squo ++ " not found."))) ∧
    (∃ bef aft, ("Material with ID " ++ squo ++ "NOT_FOUND" ++ squo ++ " not found.")
      = bef ++ "NOT_FOUND" ++ aft) ∧
    (read_material_data s "ERROR_READ" =
      .error (.operationError ("Failed to read data for material " ++ squo ++ "ERROR_READ" ++ squo ++ " (simulated)."))) := by
  refine ⟨?_, ⟨"Material with ID " ++ squo, squo ++ " not found.", by decide⟩,
          ?_, ⟨"Material with ID " ++ squo, squo ++ " not found.", by decide⟩, ?_⟩ <;>
    (unfold read_material_data connect_to_sap; rw [if_neg hhost]; rfl)

/-- Claim C6 witness at concrete ordinary settings. -/
theorem read_material_sentinel_failures_witness :
    (read_material_data sampleSettings "INVALID" =
      .error (.notFoundError ("Material with ID " ++ squo ++ "INVALID" ++ squo ++ " not found."))) ∧
    (∃ bef aft, ("Material with ID " ++ squo ++ "INVALID" ++ squo ++ " not found.")
      = bef ++ "INVALID" ++ aft) ∧
    (read_material_data sampleSettings "NOT_FOUND" =
      .error (.notFoundError ("Material with ID " ++ squo ++ "NOT_FOUND" ++ squo ++ " not found."))) ∧
    (∃ bef aft, ("Material with ID " ++ squo ++ "NOT_FOUND" ++ squo ++ " not found.")
      = bef ++ "NOT_FOUND" ++ aft) ∧
    (read_material_data sampleSettings "ERROR_READ" =
      .error (.operationError ("Failed to read data for material " ++ squo ++ "ERROR_READ" ++ squo ++ " (simulated)."))) :=
  read_material_sentinel_failures sampleSettings (by decide)

/-- Claim C7 counterexample: the empty JSON object is a mapping lacking
the details key, yet the handler answers with the JSON-data-expected
message (the truthiness test fires first); and for a non-empty mapping
lacking the key the actual message ends with in JSON payload, so it is
not the plain key-missing string of the claim. -/
theorem sales_order_body_validation_cex :
    (create_sales_order_api (fun _ => .ok (.str "unreached")) (.dict []) =
      ⟨400, .dict [("error", .str "Invalid input: JSON data expected")]⟩) ∧
    ("Invalid input: JSON data expected" ≠
      "Invalid input: " ++ squo ++ "details" ++ squo ++ " key missing") ∧
    (create_sales_order_api (fun _ => .ok (.str "unreached"))
        (.dict [("customer_id", .str "C")]) =
      ⟨400, .dict [("error", .str ("Invalid input: " ++ squo ++ "details" ++ squo ++
        " key missing in JSON payload"))]⟩) ∧
    (("Invalid input: " ++ squo ++ "details" ++ squo ++ " key missing in JSON payload") ≠
      ("Invalid input: " ++ squo ++ "details" ++ squo ++ " key missing")) :=
  ⟨rfl, by decide, rfl, by decide⟩

/-- Claim C7 as amended: the handler answers 400 with the
JSON-data-expected message when the body is absent, not a mapping, or an
empty mapping, and 400 with the key-missing-in-JSON-payload message when
the body is a non-empty mapping lacking the details key; in both cases
the response is a constant independent of the backend stub, so the stub
is never consulted. -/
theorem sales_order_body_validation
    (svc : List (String × PyVal) → Except SAPError PyVal) (data : PyVal) :
    ((data.truthy = false ∨ data.isDict = false) →
      create_sales_order_api svc data =
        ⟨400, .dict [("error", .str "Invalid input: JSON data expected")]⟩) ∧
    (∀ kvs, data = .dict kvs → kvs ≠ [] →
      kvs.any (fun p => p.1 == "details") = false →
      create_sales_order_api svc data =
        ⟨400, .dict [("error", .str ("Invalid input: " ++ squo ++ "details" ++ squo ++
          " key missing in JSON payload"))]⟩) := by
  constructor
  · intro h
    unfold create_sales_order_api
    rcases h with h | h <;> simp [h]
  · rintro kvs rfl hne hnk
    unfold create_sales_order_api PyVal.hasKey PyVal.entries
    match kvs, hne with
    | p :: rest, _ => simp [PyVal.truthy, PyVal.isDict, hnk]

/-- Claim C7 witness: a missing body and a non-empty mapping without the
details key each draw the corresponding 400 response. -/
theorem sales_order_body_validation_witness :
    (create_sales_order_api (fun _ => .ok (.str "unreached")) PyVal.none =
      ⟨400, .dict [("error", .str "Invalid input: JSON data expected")]⟩) ∧
    (create_sales_order_api (fun _ => .ok (.str "unreached"))
        (.dict [("customer_id", .str "C"), ("items", .list [.int 1])]) =
      ⟨400, .dict [("error", .str ("Invalid input: " ++ squo ++ "details" ++ squo ++
        " key missing in JSON payload"))]⟩) :=
  ⟨(sales_order_body_validation (fun _ => .ok (.str "unreached")) PyVal.none).1
     (Or.inl rfl),
   (sales_order_body_validation (fun _ => .ok (.str "unreached"))
      (.dict [("customer_id", .str "C"), ("items", .list [.int 1])])).2
     [("customer_id", .str "C"), ("items", .list [.int 1])] rfl
     (List.cons_ne_nil _ _) (by decide)⟩

/-- Claim C8: the gate authorizes exactly when the header carries a
non-empty value equal (exact, case sensitive string equality) to the
configured secret; on any request whose header is absent, empty, or
different from the secret, the decorator answers 401 with a message body,
a constant independent of the wrapped handler, so the handler never
runs. -/
theorem api_key_gate_exact (s : Settings) (handler : Request → HttpResponse)
    (req : Request)
    (hrej : ∀ k, req.apiKeyHeader = some k → k = "" ∨ s.API_KEY ≠ some k) :
    (∀ hdr key, authorized hdr key = true ↔
      ∃ k, hdr = some k ∧ k ≠ "" ∧ key = some k) ∧
    authorized (some "KEY") (some "key") = false ∧
    api_key_required s handler req =
      ⟨401, .dict [("message", .str "Unauthorized: Invalid or missing API Key")]⟩ := by
  refine ⟨?_, by decide, ?_⟩
  · intro hdr key
    cases hdr with
    | none => simp [authorized]
    | some k =>
      simp only [authorized, Bool.and_eq_true, bne_iff_ne, ne_eq, beq_iff_eq]
      constructor
      · rintro ⟨hk, hkey⟩
        exact ⟨k, rfl, hk, hkey⟩
      · rintro ⟨k2, hk2, hne, hkey⟩
        cases hk2
        exact ⟨hne, hkey⟩
  · unfold api_key_required
    have : authorized req.apiKeyHeader s.API_KEY = false := by
      cases hh : req.apiKeyHeader with
      | none => rfl
      | some k =>
        rcases hrej k hh with h | h
        · subst h; rfl
        · simp [authorized, h]
    rw [this]
    rfl

/-- Claim C8 witness: a wrong key is rejected with the 401 body. -/
theorem api_key_gate_exact_witness :
    (∀ hdr key, authorized hdr key = true ↔
      ∃ k, hdr = some k ∧ k ≠ "" ∧ key = some k) ∧
    authorized (some "KEY") (some "key") = false ∧
    api_key_required sampleSettings (fun _ => ⟨200, PyVal.none⟩)
      ⟨some "wrong_key", PyVal.none⟩ =
      ⟨401, .dict [("message", .str "Unauthorized: Invalid or missing API Key")]⟩ :=
  api_key_gate_exact sampleSettings (fun _ => ⟨200, PyVal.none⟩)
    ⟨some "wrong_key", PyVal.none⟩
    (fun k hk => by
      cases hk
      right
      decide)

/-- Claim C9: when the configured secret is unset or empty, the gate
rejects every request with the 401 body, whatever the header carries and
whatever the wrapped handler would answer. -/
theorem unset_api_key_locks_out (s : Settings)
    (hkey : s.API_KEY = Option.none ∨ s.API_KEY = some "")
    (handler : Request → HttpResponse) (req : Request) :
    api_key_required s handler req =
      ⟨401, .dict [("message", .str "Unauthorized: Invalid or missing API Key")]⟩ := by
  unfold api_key_required
  have : authorized req.apiKeyHeader s.API_KEY = false := by
    cases hh : req.apiKeyHeader with
    | none => rfl
    | some k =>
      rcases hkey with h | h <;> rw [authorized, h]
      · simp
      · by_cases hk : k = ""
        · subst hk; rfl
        · simp [hk]
          intro h2
          exact absurd h2.symm hk
  rw [this]
  rfl

/-- Claim C9 witness: with an unset secret even a non-empty header is
rejected. -/
theorem unset_api_key_locks_out_witness :
    api_key_required
      ⟨some "sap.example.com", Option.none, Option.none, Option.none, Option.none,
       Option.none, "sap_middleware/app.py", "development", true⟩
      (fun _ => ⟨200, PyVal.none⟩) ⟨some "any_key_at_all", PyVal.none⟩ =
      ⟨401, .dict [("message", .str "Unauthorized: Invalid or missing API Key")]⟩ :=
  unset_api_key_locks_out
    ⟨some "sap.example.com", Option.none, Option.none, Option.none, Option.none,
     Option.none, "sap_middleware/app.py", "development", true⟩
    (Or.inl rfl) (fun _ => ⟨200, PyVal.none⟩) ⟨some "any_key_at_all", PyVal.none⟩

/-- Claim C10: for any JSON-object body containing the details key, with
any value whatsoever at that key, the handler passes the full body to the
backend call and answers from its outcome alone; in particular the value
stored under details plays no part in the handler validation. -/
theorem details_presence_only
    (svc : List (String × PyVal) → Except SAPError PyVal)
    (kvs : List (String × PyVal))
    (hdet : kvs.any (fun p => p.1 == "details") = true) :
    create_sales_order_api svc (.dict kvs) = sales_order_service_outcome svc kvs := by
  unfold create_sales_order_api PyVal.hasKey PyVal.entries
  match kvs, hdet with
  | p :: rest, hdet => simp [PyVal.truthy, PyVal.isDict, hdet]

/-- Claim C10 witness: a body whose details value is None still reaches
the backend call, which here answers a visible confirmation. -/
theorem details_presence_only_witness :
    create_sales_order_api (fun kvs => .ok (.dict kvs))
      (.dict [("details", PyVal.none)]) =
      sales_order_service_outcome (fun kvs => .ok (.dict kvs))
        [("details", PyVal.none)] :=
  details_presence_only (fun kvs => .ok (.dict kvs))
    [("details", PyVal.none)] (by decide)
